import Mathlib

/-!
Verification of the choctaw visual-testing pipeline.

The development shallowly embeds the capture → normalize → diff → classify
pipeline of the repository.  The authoritative implementation is the main
Playwright spec file (here called "the current implementation"); the two older
spec files ("legacy implementations") contain the retry-based capture helper
and are embedded separately where a claim concerns them.

Conventions of the embedding:
* machine floats become exact rationals (ℚ);
* the filesystem becomes an association list from paths to decoded images,
  where a write shadows earlier entries (matching overwrite semantics);
* each browser-driven step (navigation, cookie dismissal, scrolling, waiting,
  screenshotting) is an oracle value of type `Except String _` describing
  whether that step succeeded or threw, so theorems quantify over every
  possible behaviour of the external browser engine;
* external image libraries (sharp's contain-resize, pixelmatch's perceptual
  pixel comparison) are not part of the repository source, so they are
  modelled from the spec — each such definition carries a doc comment
  beginning with "Modelled from the spec:".
-/

/-- One RGBA pixel (one byte per channel in the source buffers). -/
structure Pixel where
  r : Nat
  g : Nat
  b : Nat
  a : Nat
deriving DecidableEq, Repr

/-- A decoded raster image: dimensions plus a row-major RGBA pixel buffer. -/
structure Image where
  width : Nat
  height : Nat
  data : List Pixel
deriving DecidableEq, Repr

/-- Pixel lookup in the row-major buffer (out-of-range reads give zero bytes). -/
def Image.pixelAt (img : Image) (x y : Nat) : Pixel :=
  img.data.getD (y * img.width + x) ⟨0, 0, 0, 0⟩

/-- The filesystem visible to the pipeline: newest write first. -/
abbrev FileSystem := List (String × Image)

/-- `fs.readFileSync` followed by PNG decoding: the most recent write wins. -/
def readFile : FileSystem → String → Option Image
  | [], _ => none
  | (q, img) :: fs, p => if q = p then some img else readFile fs p

/-- `fs.writeFileSync`: overwrites any previous content at `p`. -/
def writeFile (fs : FileSystem) (p : String) (img : Image) : FileSystem :=
  (p, img) :: fs

/-- `fs.existsSync`. -/
def existsFile (fs : FileSystem) (p : String) : Bool :=
  (readFile fs p).isSome

/-! ### The pixel differencer (pixelmatch), modelled from the spec

The repository calls the external `pixelmatch` library with threshold `0.1`
and the two diff marker colours blue `[0,0,255]` / orange `[255,165,0]`
(those constants are in the source).  The per-pixel perceptual comparison
itself is library code, modelled from the spec: "per-pixel RGBA comparison
using a perceptual color-distance threshold (not exact byte equality) ...
a configurable sensitivity constant (0.1 on a normalized 0–1 scale)". -/

/-- Modelled from the spec: blending a channel of a semi-transparent pixel
onto a white background before the perceptual comparison. -/
def blendToWhite (c a : ℚ) : ℚ := 255 + (c - 255) * a

/-- Modelled from the spec: luma of an RGB triple (perceptual colour space). -/
def rgb2y (r g b : ℚ) : ℚ := r * 0.29889531 + g * 0.58662247 + b * 0.11448223

/-- Modelled from the spec: first chroma coordinate of an RGB triple. -/
def rgb2i (r g b : ℚ) : ℚ := r * 0.59597799 - g * 0.27417610 - b * 0.32180189

/-- Modelled from the spec: second chroma coordinate of an RGB triple. -/
def rgb2q (r g b : ℚ) : ℚ := r * 0.21147017 - g * 0.52261711 + b * 0.31114694

/-- Modelled from the spec: signed perceptual colour distance between two RGBA
pixels; the sign records which side is lighter (it selects the marker colour
in the diff image), equal pixels have distance zero. -/
def colorDeltaSigned (p1 p2 : Pixel) : ℚ :=
  if p1 = p2 then 0
  else
    let r1 := blendToWhite (p1.r : ℚ) ((p1.a : ℚ) / 255)
    let g1 := blendToWhite (p1.g : ℚ) ((p1.a : ℚ) / 255)
    let b1 := blendToWhite (p1.b : ℚ) ((p1.a : ℚ) / 255)
    let r2 := blendToWhite (p2.r : ℚ) ((p2.a : ℚ) / 255)
    let g2 := blendToWhite (p2.g : ℚ) ((p2.a : ℚ) / 255)
    let b2 := blendToWhite (p2.b : ℚ) ((p2.a : ℚ) / 255)
    let y1 := rgb2y r1 g1 b1
    let y2 := rgb2y r2 g2 b2
    let dy := y1 - y2
    let di := rgb2i r1 g1 b1 - rgb2i r2 g2 b2
    let dq := rgb2q r1 g1 b1 - rgb2q r2 g2 b2
    let delta := 0.5053 * dy * dy + 0.299 * di * di + 0.1957 * dq * dq
    if y2 < y1 then -delta else delta

/-- Modelled from the spec: magnitude of the perceptual colour distance. -/
def colorDelta (p1 p2 : Pixel) : ℚ := |colorDeltaSigned p1 p2|

/-- Modelled from the spec: the largest tolerated colour distance for a given
sensitivity threshold (0–1 scale). -/
def maxDelta (threshold : ℚ) : ℚ := 35215 * threshold * threshold

/-- Modelled from the spec: number of pixel positions whose perceptual colour
distance exceeds the threshold — the count returned by pixelmatch. -/
def mismatchCount (img1 img2 : Image) (threshold : ℚ) : Nat :=
  ((img1.data.zip img2.data).filter
    (fun pq => decide (maxDelta threshold < colorDelta pq.1 pq.2))).length

/-- One pixel of the visual diff artifact: blue `[0,0,255]` for differences on
one side, orange `[255,165,0]` for the other (marker colours from the source
call site), background elsewhere. -/
def diffPixel (threshold : ℚ) (p1 p2 : Pixel) : Pixel :=
  let d := colorDeltaSigned p1 p2
  if maxDelta threshold < |d| then
    if d < 0 then ⟨255, 165, 0, 255⟩ else ⟨0, 0, 255, 255⟩
  else ⟨255, 255, 255, 255⟩

/-- The visual diff image pixelmatch fills into `diff.data`. -/
def diffImage (img1 img2 : Image) (threshold : ℚ) : Image :=
  ⟨img1.width, img1.height,
    (img1.data.zip img2.data).map (fun pq => diffPixel threshold pq.1 pq.2)⟩

/-! ### The image normalizer (sharp contain-resize), modelled from the spec

The source's `resizeImage` calls the external `sharp` library with
`fit: "contain"` and `background: { r: 255, g: 255, b: 255, alpha: 0 }`
(those constants are in the source).  The geometry of the contain policy is
library code, modelled from the spec: "the original aspect ratio is
preserved, the image is scaled to fit entirely within the target box, and any
remaining canvas area is padded with fully transparent pixels (alpha = 0)". -/

/-- Modelled from the spec: the uniform scale factor of a contain-resize. -/
def containScale (img : Image) (w h : Nat) : ℚ :=
  min ((w : ℚ) / (img.width : ℚ)) ((h : ℚ) / (img.height : ℚ))

/-- Width of the scaled content inside the target canvas. -/
def scaledWidth (img : Image) (w h : Nat) : ℚ :=
  (img.width : ℚ) * containScale img w h

/-- Height of the scaled content inside the target canvas. -/
def scaledHeight (img : Image) (w h : Nat) : ℚ :=
  (img.height : ℚ) * containScale img w h

/-- Horizontal offset of the (centred) scaled content. -/
def offsetX (img : Image) (w h : Nat) : ℚ :=
  ((w : ℚ) - scaledWidth img w h) / 2

/-- Vertical offset of the (centred) scaled content. -/
def offsetY (img : Image) (w h : Nat) : ℚ :=
  ((h : ℚ) - scaledHeight img w h) / 2

/-- Whether canvas position `(x, y)` lies inside the scaled content box. -/
def inContentBox (img : Image) (w h : Nat) (x y : Nat) : Bool :=
  decide (offsetX img w h ≤ (x : ℚ)) &&
  decide ((x : ℚ) < offsetX img w h + scaledWidth img w h) &&
  decide (offsetY img w h ≤ (y : ℚ)) &&
  decide ((y : ℚ) < offsetY img w h + scaledHeight img w h)

/-- Modelled from the spec: sharp's contain-resize to a `w × h` canvas —
scaled source content centred on the canvas, the rest padded with the
transparent background pixel from the source call site. -/
def containResize (img : Image) (w h : Nat) : Image :=
  { width := w, height := h,
    data := (List.range (h * w)).map (fun idx =>
      let x := idx % w
      let y := idx / w
      if inContentBox img w h x y then
        img.pixelAt
          (((((x : ℚ) - offsetX img w h)) / containScale img w h).floor.toNat)
          (((((y : ℚ) - offsetY img w h)) / containScale img w h).floor.toNat)
      else ⟨255, 255, 255, 0⟩) }

/-! ### Source helper `resizeImage` (current implementation)

`resizeImage` reads the file, resizes it to the target dimensions and writes
the result back to the same path (overwriting the original capture). -/

/-- The source's `resizeImage(imagePath, width, height)`: read, contain-resize,
write back in place.  (If the file is missing, `readFileSync` would throw;
the only caller checks existence first, so that branch is unreachable and is
modelled as a no-op.) -/
def resizeImage (fs : FileSystem) (imagePath : String) (width height : Nat) :
    FileSystem :=
  match readFile fs imagePath with
  | some img => writeFile fs imagePath (containResize img width height)
  | none => fs

/-! ### Per-page outcomes and `compareScreenshots` (current implementation) -/

/-- The value stored in `similarityPercentage`: the JS union of a number,
the string `"Error"` and the string `"Size mismatch"`. -/
inductive SimilarityValue where
  | number (q : ℚ)
  | errorString
  | sizeMismatchString
deriving DecidableEq, Repr

/-- One entry pushed onto `results` by the orchestrating test: the page path,
the similarity value, and (only when the per-page catch fired) the caught
error message. -/
structure PageResult where
  pagePath : String
  similarityPercentage : SimilarityValue
  errMessage : Option String
deriving DecidableEq, Repr

/-- The source's `compareScreenshots(baselinePath, currentPath, diffPath)`:
missing input short-circuits to `"Error"`; otherwise both inputs are resized
in place to 1280×800, re-read and compared; a dimension difference gives
`"Size mismatch"`; otherwise the diff artifact is written and the similarity
percentage `(totalPixels - mismatchedPixels) / totalPixels * 100` returned.
Returns the value together with the updated filesystem. -/
def compareScreenshots (fs : FileSystem) (baselinePath currentPath diffPath : String) :
    SimilarityValue × FileSystem :=
  if !existsFile fs baselinePath || !existsFile fs currentPath then
    (.errorString, fs)
  else
    let fs1 := resizeImage fs baselinePath 1280 800
    let fs2 := resizeImage fs1 currentPath 1280 800
    match readFile fs2 baselinePath, readFile fs2 currentPath with
    | some img1, some img2 =>
      if img1.width ≠ img2.width ∨ img1.height ≠ img2.height then
        (.sizeMismatchString, fs2)
      else
        let fs3 := writeFile fs2 diffPath (diffImage img1 img2 0.1)
        let totalPixels := img1.width * img1.height
        let mismatchedPixels := mismatchCount img1 img2 0.1
        (.number (((totalPixels : ℚ) - (mismatchedPixels : ℚ)) / (totalPixels : ℚ) * 100),
         fs3)
    | _, _ => (.errorString, fs2)

/-! ### The page capturer (current implementation)

Every browser-driven step of `captureScreenshot` is a suspension point that
may throw; the oracle below records the outcome of each step of one call.
`acceptCookies` swallows its own failures; the capturer's own try/catch
swallows everything else, logs, and returns normally. -/

/-- Oracle for the browser session's behaviour during one `captureScreenshot`
call: the outcome of each awaited step. -/
structure PageSession where
  gotoResult : Except String Unit
  cookieBannerVisible : Except String Bool
  cookieClick : Except String Unit
  scrollResult : Except String Unit
  waitImagesResult : Except String Unit
  scrollTopResult : Except String Unit
  screenshotResult : Except String Image
deriving Repr

/-- The try-block of the source's `acceptCookies`: check visibility of the
cookie banner and click it when visible (explicit monadic sequencing). -/
def acceptCookiesBody (s : PageSession) : Except String Unit :=
  match s.cookieBannerVisible with
  | .error e => .error e
  | .ok visible => if visible then s.cookieClick else .ok ()

/-- The source's `acceptCookies`: its catch swallows any failure ("No cookie
banner detected."), so the helper always returns normally. -/
def acceptCookies (s : PageSession) : Except String Unit :=
  match acceptCookiesBody s with
  | .ok _ => .ok ()
  | .error _ => .ok ()

/-- The try-block of the current `captureScreenshot`: navigate, dismiss
cookies, scroll for lazy loading, wait for images, scroll back, settle, then
write the full-page screenshot.  (`ensureDirectoryExistence` and the fixed
`waitForTimeout` delays have no effect on the modelled state.) -/
def captureScreenshotBody (s : PageSession) (fs : FileSystem)
    (screenshotPath : String) : Except String FileSystem :=
  match s.gotoResult with
  | .error e => .error e
  | .ok _ =>
    match acceptCookies s with
    | .error e => .error e
    | .ok _ =>
      match s.scrollResult with
      | .error e => .error e
      | .ok _ =>
        match s.waitImagesResult with
        | .error e => .error e
        | .ok _ =>
          match s.scrollTopResult with
          | .error e => .error e
          | .ok _ =>
            match s.screenshotResult with
            | .error e => .error e
            | .ok img => .ok (writeFile fs screenshotPath img)

/-- The current `captureScreenshot(page, url, screenshotPath)`: the catch
logs the failure and returns normally, leaving the filesystem untouched;
there is no retry. -/
def captureScreenshot (s : PageSession) (url : String) (fs : FileSystem)
    (screenshotPath : String) : Except String FileSystem :=
  match captureScreenshotBody s fs screenshotPath with
  | .ok fs1 => .ok fs1
  | .error _ => .ok fs

/-- The filesystem left behind by one `captureScreenshot` call (identical to
the call's result, which is always `.ok`). -/
def captureFS (s : PageSession) (url : String) (fs : FileSystem)
    (screenshotPath : String) : FileSystem :=
  match captureScreenshotBody s fs screenshotPath with
  | .ok fs1 => fs1
  | .error _ => fs

/-! ### The legacy page capturer (retry loop)

The two older spec files share this helper: up to `maxAttempts = 3` attempts
of viewport-set / navigate / screenshot, throwing a fresh
`"Failed to load <url> after 3 attempts"` error once all attempts failed.
One attempt is one oracle entry (the image on success, the thrown message on
failure).  The while loop is written with the fuel `remaining`, which equals
`maxAttempts - attempts` throughout; the loop guard `attempts < maxAttempts`
is exactly `remaining > 0`. -/

def captureAttempts (a : Nat → Except String Image) (url : String)
    (fs : FileSystem) (path : String) (maxAttempts : Nat) :
    Nat → Nat → Except String FileSystem
  | _, 0 => .ok fs
  | attempts, remaining + 1 =>
    match a attempts with
    | .ok img => .ok (writeFile fs path img)
    | .error _ =>
      if attempts + 1 = maxAttempts then
        .error ("Failed to load " ++ url ++ " after " ++ toString maxAttempts
          ++ " attempts")
      else
        captureAttempts a url fs path maxAttempts (attempts + 1) remaining

/-- The legacy `captureScreenshot(page, url, path)` of the two older spec
files: retry loop with `maxAttempts = 3`. -/
def captureScreenshotLegacy (a : Nat → Except String Image) (url : String)
    (fs : FileSystem) (path : String) : Except String FileSystem :=
  captureAttempts a url fs path 3 0 3

/-! ### Configuration (config.js) -/

def configStagingBaseUrl : String := "https://choctawcstg.wpengine.com"

def configProdBaseUrl : String := "https://www.choctawcasinos.com"

def configStagingUrls : List String :=
  ["/", "/durant", "/pocola", "/hochatown", "/grant", "/mcalester",
   "/broken-bow", "/idabel", "/stringtown", "/events", "/promotions",
   "/newsroom"]

def configProdUrls : List String :=
  ["/", "/durant", "/pocola", "/hochatown", "/grant", "/mcalester",
   "/broken-bow", "/idabel", "/stringtown", "/events", "/promotions",
   "/newsroom"]

/-! ### The orchestrating test (current implementation) -/

/-- Path separators sanitized to a flat filename: `pagePath.replace(/\//g, "_")`. -/
def sanitizePath (p : String) : String := p.replace "/" "_"

def deviceName : String := "Desktop"

def baseDir : String := "screenshots/" ++ deviceName

def stagingShotPath (p : String) : String :=
  baseDir ++ "/staging/" ++ sanitizePath p ++ ".png"

def prodShotPath (p : String) : String :=
  baseDir ++ "/prod/" ++ sanitizePath p ++ ".png"

def diffShotPath (p : String) : String :=
  baseDir ++ "/diff/" ++ sanitizePath p ++ ".png"

def stagingUrl (p : String) : String := configStagingBaseUrl ++ p

def prodUrl (p : String) : String := configProdBaseUrl ++ p

/-- The browser behaviour for one page: one session oracle per environment. -/
structure PageOracles where
  staging : PageSession
  prod : PageSession
deriving Repr

/-- The try-block of one loop iteration of the orchestrating test: capture
staging, capture prod, compare, and build the record that is pushed. -/
def runPageBody (o : PageOracles) (fs : FileSystem) (pagePath : String) :
    Except String (PageResult × FileSystem) :=
  match captureScreenshot o.staging (stagingUrl pagePath) fs
      (stagingShotPath pagePath) with
  | .error e => .error e
  | .ok fs1 =>
    match captureScreenshot o.prod (prodUrl pagePath) fs1
        (prodShotPath pagePath) with
    | .error e => .error e
    | .ok fs2 =>
      let r := compareScreenshots fs2 (stagingShotPath pagePath)
        (prodShotPath pagePath) (diffShotPath pagePath)
      .ok (⟨pagePath, r.1, none⟩, r.2)

/-- One loop iteration of the orchestrating test: its catch pushes an
`"Error"` record carrying the caught message instead of aborting. -/
def runPage (o : PageOracles) (fs : FileSystem) (pagePath : String) :
    PageResult × FileSystem :=
  match runPageBody o fs pagePath with
  | .ok r => r
  | .error msg => (⟨pagePath, .errorString, some msg⟩, fs)

/-- The whole page loop of the orchestrating test: one record per configured
page path, in configuration order, threading the filesystem through. -/
def runAll (o : String → PageOracles) : FileSystem → List String →
    List PageResult × FileSystem
  | fs, [] => ([], fs)
  | fs, p :: rest =>
    let pr := runPage (o p) fs p
    let r2 := runAll o pr.2 rest
    (pr.1 :: r2.1, r2.2)

/-! ### The result aggregator (`generateHtmlReport`, current implementation) -/

/-- Summary count of passed records: numeric similarity `≥ 95`. -/
def countPassed (results : List PageResult) : Nat :=
  (results.filter (fun r =>
    match r.similarityPercentage with
    | .number q => decide (95 ≤ q)
    | _ => false)).length

/-- Summary count of failed records: numeric similarity `< 95`. -/
def countFailed (results : List PageResult) : Nat :=
  (results.filter (fun r =>
    match r.similarityPercentage with
    | .number q => decide (q < 95)
    | _ => false)).length

/-- Summary count of errored records: `similarityPercentage === "Error"`
(note: the strict string comparison does not match `"Size mismatch"`). -/
def countErrors (results : List PageResult) : Nat :=
  (results.filter (fun r =>
    match r.similarityPercentage with
    | .errorString => true
    | _ => false)).length

/-- The per-row status text of the report table: numbers classify by the 95
boundary, any non-number (both `"Error"` and `"Size mismatch"`) displays as
`"Error"`. -/
def statusText (v : SimilarityValue) : String :=
  match v with
  | .number q => if 95 ≤ q then "Pass" else "Fail"
  | _ => "Error"

/-- The sort comparator passed to `results.sort`: `"Error"` compares below
everything, two numbers compare by difference, every other pairing returns
`0` (in particular a `"Size mismatch"` record ties with everything that is
not `"Error"`). -/
def sortCmp (a b : PageResult) : ℚ :=
  if a.similarityPercentage = .errorString then -1
  else if b.similarityPercentage = .errorString then 1
  else
    match a.similarityPercentage, b.similarityPercentage with
    | .number x, .number y => x - y
    | _, _ => 0

/-- Stable insertion of a record (originally positioned before every element
of the list) into an already-sorted list: it stays in front unless the
comparator strictly orders it later. -/
def insertRec (x : PageResult) : List PageResult → List PageResult
  | [] => [x]
  | y :: ys => if sortCmp x y ≤ 0 then x :: y :: ys else y :: insertRec x ys

/-- `results.sort(comparator)` as a stable comparison sort. -/
def sortResults : List PageResult → List PageResult
  | [] => []
  | x :: xs => insertRec x (sortResults xs)

/-- The summary data of the generated report: the headline counts plus the
record sequence in presentation order. -/
structure RunSummary where
  totalPages : Nat
  passed : Nat
  failed : Nat
  errors : Nat
  ordered : List PageResult
deriving DecidableEq, Repr

/-- The aggregation performed by `generateHtmlReport`: counts are computed
first, then the record list is sorted for presentation. -/
def generateHtmlReport (results : List PageResult) : RunSummary :=
  ⟨results.length, countPassed results, countFailed results,
   countErrors results, sortResults results⟩

/-- The whole orchestrating test over a configured page list: the per-page
loop followed by report generation.  The `Except` layer records whether the
test function rejects; every per-page failure is caught inside the loop, so
the body as written can only resolve. -/
def runTest (o : String → PageOracles) (fs : FileSystem) (pages : List String) :
    Except String (RunSummary × FileSystem) :=
  let r := runAll o fs pages
  .ok (generateHtmlReport r.1, r.2)

/-- The combined filesystem state after the two capture calls of one loop
iteration (staging first, then prod). -/
def pageCapturesFS (o : PageOracles) (fs : FileSystem) (p : String) : FileSystem :=
  captureFS o.prod (prodUrl p)
    (captureFS o.staging (stagingUrl p) fs (stagingShotPath p))
    (prodShotPath p)

/-! ### Concrete oracles and images used by witnesses -/

/-- A 1×1 image used in witnesses. -/
def img1x1 : Image := ⟨1, 1, [⟨10, 20, 30, 255⟩]⟩

/-- A session in which every browser step succeeds. -/
def okSession : PageSession :=
  ⟨.ok (), .ok false, .ok (), .ok (), .ok (), .ok (), .ok img1x1⟩

/-- A session in which navigation and screenshotting throw. -/
def failSession : PageSession :=
  ⟨.error "net::ERR_TIMED_OUT", .ok false, .ok (), .ok (), .ok (), .ok (),
   .error "net::ERR_TIMED_OUT"⟩

/-! ### Claim C3 (corrected)

The comparator moves `"Error"` records below everything and orders numeric
records ascending, but returns `0` between a `"Size mismatch"` record and a
numeric record, so a stable sort leaves `"Size mismatch"` records where they
were — they are not moved in front of the `Similarity` records. -/

/-- The presentation order actually guaranteed by the comparator on records
that are not `"Size mismatch"`: an `"Error"` record precedes everything, and
two numeric records are ascending. -/
def ordOk (a b : PageResult) : Prop :=
  a.similarityPercentage = .errorString ∨
    ∃ x y, a.similarityPercentage = .number x ∧
      b.similarityPercentage = .number y ∧ x ≤ y

/-! ## Theorems -/

/-! Basic filesystem lemmas. -/

theorem readFile_writeFile_self (fs : FileSystem) (p : String) (img : Image) :
    readFile (writeFile fs p img) p = some img := by
  simp [readFile, writeFile]

theorem readFile_writeFile_ne (fs : FileSystem) (p q : String) (img : Image)
    (h : p ≠ q) : readFile (writeFile fs p img) q = readFile fs q := by
  simp [readFile, writeFile, h]

theorem containResize_width (img : Image) (w h : Nat) :
    (containResize img w h).width = w := rfl

theorem containResize_height (img : Image) (w h : Nat) :
    (containResize img w h).height = h := rfl

theorem maxDelta_nonneg (t : ℚ) : 0 ≤ maxDelta t := by
  unfold maxDelta
  rw [mul_assoc]
  exact mul_nonneg (by norm_num) (mul_self_nonneg t)

theorem colorDelta_self (p : Pixel) : colorDelta p p = 0 := by
  simp [colorDelta, colorDeltaSigned]

theorem mismatchCount_self (img : Image) (t : ℚ) : mismatchCount img img t = 0 := by
  unfold mismatchCount
  have hz : ∀ l : List Pixel,
      ((l.zip l).filter (fun pq => decide (maxDelta t < colorDelta pq.1 pq.2))) = [] := by
    intro l
    induction l with
    | nil => rfl
    | cons x xs ih =>
      have hx : (decide (maxDelta t < colorDelta x x)) = false := by
        rw [colorDelta_self]
        simp [not_lt.mpr (maxDelta_nonneg t)]
      simp only [List.zip_cons_cons, List.filter_cons, hx]
      exact ih
  rw [hz]
  rfl

/-! ### Helper lemmas about the capturer and the orchestrator -/

/-- The current capturer resolves on every oracle (the value is `captureFS`). -/
theorem captureScreenshot_ok (s : PageSession) (url : String) (fs : FileSystem)
    (p : String) : captureScreenshot s url fs p = .ok (captureFS s url fs p) := by
  unfold captureScreenshot captureFS
  cases captureScreenshotBody s fs p <;> rfl

/-- When the capture body throws, the catch leaves the filesystem untouched. -/
theorem captureFS_of_error (s : PageSession) (url : String) (fs : FileSystem)
    (p : String) (e : String) (h : captureScreenshotBody s fs p = .error e) :
    captureFS s url fs p = fs := by
  unfold captureFS
  rw [h]

/-- One capture call either leaves the filesystem untouched or writes exactly
one image at the destination path. -/
theorem captureFS_cases (s : PageSession) (url : String) (fs : FileSystem)
    (p : String) :
    captureFS s url fs p = fs ∨ ∃ img, captureFS s url fs p = writeFile fs p img := by
  unfold captureFS captureScreenshotBody
  rcases s with ⟨g, cv, ck, sc, wi, st, sh⟩
  cases g
  case error e => left; rfl
  case ok u =>
    cases hac : acceptCookies ⟨.ok u, cv, ck, sc, wi, st, sh⟩
    case error e => simp [hac]
    case ok v =>
      simp only [hac]
      cases sc
      case error e => left; rfl
      case ok _ =>
        cases wi
        case error e => left; rfl
        case ok _ =>
          cases st
          case error e => left; rfl
          case ok _ =>
            cases sh
            case error e => left; rfl
            case ok img => right; exact ⟨img, rfl⟩

/-- Closed form of one loop iteration: both captures resolve, so the pushed
record always comes from `compareScreenshots` on the post-capture state. -/
theorem runPage_eq (o : PageOracles) (fs : FileSystem) (p : String) :
    runPage o fs p =
      (⟨p, (compareScreenshots (pageCapturesFS o fs p) (stagingShotPath p)
              (prodShotPath p) (diffShotPath p)).1, none⟩,
       (compareScreenshots (pageCapturesFS o fs p) (stagingShotPath p)
              (prodShotPath p) (diffShotPath p)).2) := by
  unfold runPage runPageBody
  simp only [captureScreenshot_ok]
  rfl

theorem runPage_pagePath (o : PageOracles) (fs : FileSystem) (p : String) :
    (runPage o fs p).1.pagePath = p := by
  rw [runPage_eq]

/-! ### Helper lemmas about `compareScreenshots` -/

/-- Missing input short-circuits: `"Error"` and no filesystem change at all. -/
theorem compare_missing (fs : FileSystem) (b c d : String)
    (h : readFile fs b = none ∨ readFile fs c = none) :
    compareScreenshots fs b c d = (.errorString, fs) := by
  unfold compareScreenshots
  rcases h with h | h <;> simp [existsFile, h]

/-- Closed form of a comparison of two distinct existing files: both are
resized in place, the diff artifact is written, and the similarity value is
the matched-pixel percentage over the 1280×800 canvas. -/
theorem compare_some (fs : FileSystem) (b c d : String) (i1 i2 : Image)
    (hb : readFile fs b = some i1) (hc : readFile fs c = some i2)
    (hbc : b ≠ c) :
    compareScreenshots fs b c d =
      (.number ((((1280 * 800 : Nat) : ℚ) -
          (mismatchCount (containResize i1 1280 800) (containResize i2 1280 800) 0.1 : ℚ)) /
          ((1280 * 800 : Nat) : ℚ) * 100),
       writeFile
         (writeFile (writeFile fs b (containResize i1 1280 800)) c
           (containResize i2 1280 800))
         d (diffImage (containResize i1 1280 800) (containResize i2 1280 800) 0.1)) := by
  unfold compareScreenshots
  have hcond : (!existsFile fs b || !existsFile fs c) = false := by
    simp [existsFile, hb, hc]
  rw [hcond]
  simp only [Bool.false_eq_true, if_false]
  unfold resizeImage
  rw [hb, readFile_writeFile_ne fs b c _ hbc, hc,
    readFile_writeFile_ne _ c b _ (Ne.symm hbc), readFile_writeFile_self,
    readFile_writeFile_self]
  dsimp only
  rw [if_neg]
  · rfl
  · rw [containResize_width, containResize_width, containResize_height,
      containResize_height]
    norm_num

/-- Comparing the same existing path against itself also produces a numeric
similarity (the file is resized twice in place). -/
theorem compare_same_path (fs : FileSystem) (b d : String) (i1 : Image)
    (hb : readFile fs b = some i1) :
    ∃ q, (compareScreenshots fs b b d).1 = .number q := by
  unfold compareScreenshots
  have hcond : (!existsFile fs b || !existsFile fs b) = false := by
    simp [existsFile, hb]
  rw [hcond]
  simp only [Bool.false_eq_true, if_false]
  unfold resizeImage
  rw [hb]
  simp only [readFile_writeFile_self]
  rw [if_neg]
  · exact ⟨_, rfl⟩
  · norm_num

/-- Both inputs present (any paths) always yields a numeric similarity. -/
theorem compare_isNumber (fs : FileSystem) (b c d : String) (i1 i2 : Image)
    (hb : readFile fs b = some i1) (hc : readFile fs c = some i2) :
    ∃ q, (compareScreenshots fs b c d).1 = .number q := by
  by_cases hbc : b = c
  · subst hbc
    exact compare_same_path fs b d i1 hb
  · rw [compare_some fs b c d i1 i2 hb hc hbc]
    exact ⟨_, rfl⟩

/-- The comparison reports `"Error"` exactly when an input file is missing. -/
theorem compare_error_iff (fs : FileSystem) (b c d : String) :
    (compareScreenshots fs b c d).1 = .errorString ↔
      (readFile fs b = none ∨ readFile fs c = none) := by
  constructor
  · intro h
    by_contra hn
    push_neg at hn
    obtain ⟨h1, h2⟩ := hn
    obtain ⟨i1, hb⟩ := Option.ne_none_iff_exists'.mp h1
    obtain ⟨i2, hc⟩ := Option.ne_none_iff_exists'.mp h2
    obtain ⟨q, hq⟩ := compare_isNumber fs b c d i1 i2 hb hc
    rw [hq] at h
    exact SimilarityValue.noConfusion h
  · intro h
    rw [compare_missing fs b c d h]

/-- The staging and prod screenshot paths of a page are always distinct
(their fixed directory prefixes have different lengths). -/
theorem stagingShotPath_ne_prodShotPath (p : String) :
    stagingShotPath p ≠ prodShotPath p := by
  intro h
  have h2 := congrArg String.length h
  rw [stagingShotPath, prodShotPath] at h2
  simp only [String.length_append] at h2
  have e1 : baseDir.length = 19 := rfl
  have e2 : ("/staging/" : String).length = 9 := rfl
  have e3 : ("/prod/" : String).length = 6 := rfl
  have e4 : (".png" : String).length = 4 := rfl
  rw [e1, e2, e3, e4] at h2
  omega

/-! ### Claim C1 -/

/-- C1: running the comparison over any configured page list produces exactly
one result record per configured page — in configuration order and with the
page's own path — regardless of how any per-page capture or comparison
behaves, so the final results sequence always has the same length as the
configured page list. -/
theorem c1_one_result_per_page :
    ∀ (o : String → PageOracles) (fs : FileSystem) (pages : List String),
      (runAll o fs pages).1.map PageResult.pagePath = pages ∧
      (runAll o fs pages).1.length = pages.length := by
  intro o fs pages
  induction pages generalizing fs with
  | nil => simp [runAll]
  | cons p rest ih =>
    obtain ⟨ih1, ih2⟩ := ih (runPage (o p) fs p).2
    simp [runAll, runPage_pagePath, ih1, ih2]

/-! ### Claim C5 -/

/-- C5: a page whose expected screenshot file is missing before diffing
(in particular one whose capture failed on either environment) gets outcome
`"Error"`, and neither normalization nor pixel differencing runs for it: the
comparison leaves the filesystem exactly as the captures left it, so no diff
artifact is produced.  The second conjunct states this end to end for a page
whose staging capture threw and whose staging file did not previously
exist. -/
theorem c5_capture_error_short_circuit :
    (∀ (fs : FileSystem) (b c d : String),
        readFile fs b = none ∨ readFile fs c = none →
        compareScreenshots fs b c d = (.errorString, fs)) ∧
    (∀ (o : PageOracles) (fs : FileSystem) (p e : String),
        captureScreenshotBody o.staging fs (stagingShotPath p) = .error e →
        readFile fs (stagingShotPath p) = none →
        runPage o fs p =
          (⟨p, .errorString, none⟩,
           captureFS o.prod (prodUrl p) fs (prodShotPath p))) := by
  constructor
  · exact compare_missing
  · intro o fs p e hbody hmiss
    have hfs1 : captureFS o.staging (stagingUrl p) fs (stagingShotPath p) = fs :=
      captureFS_of_error _ _ _ _ _ hbody
    have hmiss2 : readFile (pageCapturesFS o fs p) (stagingShotPath p) = none := by
      unfold pageCapturesFS
      rw [hfs1]
      rcases captureFS_cases o.prod (prodUrl p) fs (prodShotPath p) with
        hcase | ⟨img, hcase⟩
      · rw [hcase]; exact hmiss
      · rw [hcase, readFile_writeFile_ne _ _ _ _
          (Ne.symm (stagingShotPath_ne_prodShotPath p))]
        exact hmiss
    have hcomp := compare_missing (pageCapturesFS o fs p) (stagingShotPath p)
      (prodShotPath p) (diffShotPath p) (Or.inl hmiss2)
    rw [runPage_eq, hcomp]
    unfold pageCapturesFS
    rw [hfs1]

/-- Witness for C5 at a concrete failing staging capture over an empty
filesystem. -/
theorem c5_witness :
    captureScreenshotBody failSession [] (stagingShotPath "/durant") =
        .error "net::ERR_TIMED_OUT" ∧
    readFile [] (stagingShotPath "/durant") = none ∧
    runPage ⟨failSession, okSession⟩ [] "/durant" =
      (⟨"/durant", .errorString, none⟩,
       captureFS okSession (prodUrl "/durant") [] (prodShotPath "/durant")) :=
  ⟨rfl, rfl,
    c5_capture_error_short_circuit.2 ⟨failSession, okSession⟩ [] "/durant"
      "net::ERR_TIMED_OUT" rfl rfl⟩

/-! ### Claim C6 -/

/-- C6: for any two existing capture files, the similarity value the
comparison produces is exactly `(totalPixels - mismatchedPixelCount) /
totalPixels * 100` over the normalized `1280 × 800` canvas, and for
byte-identical inputs the mismatched pixel count is `0` and the similarity is
exactly `100`. -/
theorem c6_similarity_formula :
    ∀ (fs : FileSystem) (b c d : String) (i1 i2 : Image),
      readFile fs b = some i1 → readFile fs c = some i2 → b ≠ c →
      ((compareScreenshots fs b c d).1 =
        .number ((((1280 * 800 : Nat) : ℚ) -
            (mismatchCount (containResize i1 1280 800) (containResize i2 1280 800)
              0.1 : ℚ)) /
            ((1280 * 800 : Nat) : ℚ) * 100)) ∧
      (i1 = i2 →
        mismatchCount (containResize i1 1280 800) (containResize i2 1280 800)
            0.1 = 0 ∧
        (compareScreenshots fs b c d).1 = .number 100) := by
  intro fs b c d i1 i2 hb hc hbc
  have hcs := compare_some fs b c d i1 i2 hb hc hbc
  constructor
  · rw [hcs]
  · intro hii
    subst hii
    have hm := mismatchCount_self (containResize i1 1280 800) (0.1 : ℚ)
    refine ⟨hm, ?_⟩
    rw [hcs, hm]
    norm_num

/-- Witness for C6 at two concrete identical 1×1 files. -/
theorem c6_witness :
    readFile [("a", img1x1), ("b", img1x1)] "a" = some img1x1 ∧
    readFile [("a", img1x1), ("b", img1x1)] "b" = some img1x1 ∧
    ("a" : String) ≠ "b" ∧
    (mismatchCount (containResize img1x1 1280 800) (containResize img1x1 1280 800)
        0.1 = 0 ∧
      (compareScreenshots [("a", img1x1), ("b", img1x1)] "a" "b" "d").1 =
        .number 100) :=
  ⟨rfl, rfl, by decide,
    (c6_similarity_formula [("a", img1x1), ("b", img1x1)] "a" "b" "d" img1x1
      img1x1 rfl rfl (by decide)).2 rfl⟩

/-! ### Claim C9 -/

/-- C9: the current `captureScreenshot` never propagates an error to its
caller — every internal failure is caught and the call resolves — and it does
not retry; consequently the per-page catch in the orchestrating loop never
fires (the record's caught-error field is always `none`) and an `"Error"`
outcome arises exactly when a screenshot file is missing at comparison time,
never from the capture call itself. -/
theorem c9_capture_never_throws :
    (∀ (s : PageSession) (url : String) (fs : FileSystem) (p : String),
        captureScreenshot s url fs p = .ok (captureFS s url fs p)) ∧
    (∀ (o : PageOracles) (fs : FileSystem) (p : String),
        (runPage o fs p).1.errMessage = none ∧
        ((runPage o fs p).1.similarityPercentage = .errorString ↔
          (readFile (pageCapturesFS o fs p) (stagingShotPath p) = none ∨
           readFile (pageCapturesFS o fs p) (prodShotPath p) = none))) := by
  refine ⟨captureScreenshot_ok, ?_⟩
  intro o fs p
  rw [runPage_eq]
  exact ⟨rfl, compare_error_iff _ _ _ _⟩

/-! ### Claim C10 -/

/-- C10: normalization overwrites the captured screenshot files in place —
`resizeImage` writes the resized buffer back to the source image's own path,
and after a successful comparison the persisted staging and prod artifacts
are exactly the normalized 1280×800 images, not the original captures. -/
theorem c10_normalization_overwrites :
    (∀ (fs : FileSystem) (p : String) (i : Image) (w h : Nat),
        readFile fs p = some i →
        resizeImage fs p w h = writeFile fs p (containResize i w h)) ∧
    (∀ (fs : FileSystem) (b c d : String) (i1 i2 : Image),
        readFile fs b = some i1 → readFile fs c = some i2 →
        b ≠ c → d ≠ b → d ≠ c →
        readFile (compareScreenshots fs b c d).2 b =
            some (containResize i1 1280 800) ∧
        readFile (compareScreenshots fs b c d).2 c =
            some (containResize i2 1280 800)) := by
  constructor
  · intro fs p i w h hp
    unfold resizeImage
    rw [hp]
  · intro fs b c d i1 i2 hb hc hbc hdb hdc
    rw [compare_some fs b c d i1 i2 hb hc hbc]
    constructor
    · rw [readFile_writeFile_ne _ _ _ _ hdb,
        readFile_writeFile_ne _ _ _ _ (Ne.symm hbc), readFile_writeFile_self]
    · rw [readFile_writeFile_ne _ _ _ _ hdc, readFile_writeFile_self]

/-- Witness for C10 at two concrete 1×1 files and a distinct diff path. -/
theorem c10_witness :
    readFile [("a", img1x1), ("b", img1x1)] "a" = some img1x1 ∧
    readFile [("a", img1x1), ("b", img1x1)] "b" = some img1x1 ∧
    ("a" : String) ≠ "b" ∧ ("d" : String) ≠ "a" ∧ ("d" : String) ≠ "b" ∧
    (readFile (compareScreenshots [("a", img1x1), ("b", img1x1)] "a" "b" "d").2
        "a" = some (containResize img1x1 1280 800) ∧
     readFile (compareScreenshots [("a", img1x1), ("b", img1x1)] "a" "b" "d").2
        "b" = some (containResize img1x1 1280 800)) :=
  ⟨rfl, rfl, by decide, by decide, by decide,
    c10_normalization_overwrites.2 [("a", img1x1), ("b", img1x1)] "a" "b" "d"
      img1x1 img1x1 rfl rfl (by decide) (by decide) (by decide)⟩

/-! ### Claim C2 (corrected)

The summary counters of `generateHtmlReport` classify a numeric similarity
`≥ 95` as passed (so exactly `95` passes), a numeric similarity `< 95` as
failed, and count as errors only records whose value is the string `"Error"`.
A `"Size mismatch"` record is counted by none of the three counters (even
though its table row displays as `"Error"`), so the claim that `SizeMismatch`
and `CaptureError` are both counted as errored — and that the three counts
cover every record — is false on the code. -/

/-- Counterexample to C2: a single `"Size mismatch"` record is counted in
none of the three summary counters, so the three counts do not cover it. -/
theorem c2_counterexample :
    countPassed [⟨"/durant", .sizeMismatchString, none⟩] = 0 ∧
    countFailed [⟨"/durant", .sizeMismatchString, none⟩] = 0 ∧
    countErrors [⟨"/durant", .sizeMismatchString, none⟩] = 0 ∧
    ([⟨"/durant", .sizeMismatchString, none⟩] : List PageResult).length = 1 ∧
    statusText .sizeMismatchString = "Error" := by
  refine ⟨rfl, rfl, rfl, rfl, rfl⟩

/-- C2 as amended: a `Similarity` record with percentage `≥ 95` (including
exactly `95`) is counted passed, `< 95` failed, and a `CaptureError`
(`"Error"`) record errored; a `SizeMismatch` record is displayed as `"Error"`
in its table row but counted by none of the three counters, so the three
counts together cover exactly the records that are not `SizeMismatch`. -/
theorem c2_classification_amended :
    ∀ (results : List PageResult) (p : String) (q : ℚ),
      countPassed results + countFailed results + countErrors results =
        (results.filter (fun r =>
          decide (r.similarityPercentage ≠ .sizeMismatchString))).length ∧
      countPassed [⟨p, .number q, none⟩] = (if 95 ≤ q then 1 else 0) ∧
      countFailed [⟨p, .number q, none⟩] = (if q < 95 then 1 else 0) ∧
      countErrors [⟨p, .number q, none⟩] = 0 ∧
      countPassed [⟨p, .errorString, none⟩] = 0 ∧
      countFailed [⟨p, .errorString, none⟩] = 0 ∧
      countErrors [⟨p, .errorString, none⟩] = 1 ∧
      statusText (.number q) = (if 95 ≤ q then "Pass" else "Fail") ∧
      statusText .errorString = "Error" := by
  intro results p q
  refine ⟨?_, ?_, ?_, rfl, rfl, rfl, rfl, rfl, rfl⟩
  · induction results with
    | nil => rfl
    | cons r rest ih =>
      rcases r with ⟨rp, rv, re⟩
      cases rv with
      | number x =>
        by_cases hx : 95 ≤ x
        · simp [countPassed, countFailed, countErrors, List.filter, hx,
            not_lt.mpr hx] at ih ⊢
          omega
        · have hx2 : x < 95 := not_le.mp hx
          simp [countPassed, countFailed, countErrors, List.filter, hx, hx2]
            at ih ⊢
          omega
      | errorString =>
        simp [countPassed, countFailed, countErrors, List.filter] at ih ⊢
        omega
      | sizeMismatchString =>
        simp [countPassed, countFailed, countErrors, List.filter] at ih ⊢
        omega
  · by_cases hx : 95 ≤ q <;> simp [countPassed, List.filter, hx]
  · by_cases hx : q < 95 <;> simp [countFailed, List.filter, hx]

theorem sortCmp_le (a b : PageResult)
    (ha : a.similarityPercentage ≠ .sizeMismatchString)
    (hb : b.similarityPercentage ≠ .sizeMismatchString)
    (h : sortCmp a b ≤ 0) : ordOk a b := by
  by_cases haE : a.similarityPercentage = .errorString
  · exact Or.inl haE
  · by_cases hbE : b.similarityPercentage = .errorString
    · exfalso
      rw [sortCmp, if_neg haE, if_pos hbE] at h
      norm_num at h
    · cases hsa : a.similarityPercentage with
      | number x =>
        cases hsb : b.similarityPercentage with
        | number y =>
          rw [sortCmp, if_neg haE, if_neg hbE, hsa, hsb] at h
          exact Or.inr ⟨x, y, hsa, hsb, sub_nonpos.mp h⟩
        | errorString => exact absurd hsb hbE
        | sizeMismatchString => exact absurd hsb hb
      | errorString => exact absurd hsa haE
      | sizeMismatchString => exact absurd hsa ha

theorem sortCmp_gt (a b : PageResult)
    (ha : a.similarityPercentage ≠ .sizeMismatchString)
    (hb : b.similarityPercentage ≠ .sizeMismatchString)
    (h : ¬ sortCmp a b ≤ 0) : ordOk b a := by
  by_cases haE : a.similarityPercentage = .errorString
  · exfalso
    rw [sortCmp, if_pos haE] at h
    norm_num at h
  · by_cases hbE : b.similarityPercentage = .errorString
    · exact Or.inl hbE
    · cases hsa : a.similarityPercentage with
      | number x =>
        cases hsb : b.similarityPercentage with
        | number y =>
          rw [sortCmp, if_neg haE, if_neg hbE, hsa, hsb] at h
          have hyx : y ≤ x := le_of_lt (sub_pos.mp (not_le.mp h))
          exact Or.inr ⟨y, x, hsb, hsa, hyx⟩
        | errorString => exact absurd hsb hbE
        | sizeMismatchString => exact absurd hsb hb
      | errorString => exact absurd hsa haE
      | sizeMismatchString => exact absurd hsa ha

theorem ordOk_trans (a b c : PageResult) (hab : ordOk a b) (hbc : ordOk b c) :
    ordOk a c := by
  rcases hab with haE | ⟨x, y, hsa, hsb, hxy⟩
  · exact Or.inl haE
  · rcases hbc with hbE | ⟨y2, z, hsb2, hsc, hyz⟩
    · rw [hsb] at hbE
      exact SimilarityValue.noConfusion hbE
    · rw [hsb] at hsb2
      obtain rfl := (SimilarityValue.number.injEq y2 y).mp hsb2.symm
      exact Or.inr ⟨x, z, hsa, hsc, le_trans hxy hyz⟩

theorem insertRec_perm (x : PageResult) (l : List PageResult) :
    List.Perm (insertRec x l) (x :: l) := by
  induction l with
  | nil => exact List.Perm.refl _
  | cons y ys ih =>
    by_cases h : sortCmp x y ≤ 0
    · rw [insertRec, if_pos h]
    · rw [insertRec, if_neg h]
      exact (ih.cons y).trans (List.Perm.swap x y ys)

theorem insertRec_pairwise (x : PageResult) (l : List PageResult)
    (hx : x.similarityPercentage ≠ .sizeMismatchString)
    (hl : ∀ r ∈ l, r.similarityPercentage ≠ .sizeMismatchString)
    (hp : l.Pairwise ordOk) : (insertRec x l).Pairwise ordOk := by
  induction l with
  | nil => simp [insertRec]
  | cons y ys ih =>
    have hy := hl y (List.mem_cons_self y ys)
    have hys : ∀ r ∈ ys, r.similarityPercentage ≠ .sizeMismatchString :=
      fun r hr => hl r (List.mem_cons_of_mem y hr)
    obtain ⟨hyz, hpys⟩ := List.pairwise_cons.mp hp
    by_cases h : sortCmp x y ≤ 0
    · rw [insertRec, if_pos h]
      refine List.Pairwise.cons ?_ hp
      intro z hz
      rcases List.mem_cons.mp hz with rfl | hzys
      · exact sortCmp_le x z hx hy h
      · exact ordOk_trans x y z (sortCmp_le x y hx hy h) (hyz z hzys)
    · rw [insertRec, if_neg h]
      refine List.Pairwise.cons ?_ (ih hys hpys)
      intro z hz
      have hz2 : z ∈ x :: ys := (insertRec_perm x ys).mem_iff.mp hz
      rcases List.mem_cons.mp hz2 with rfl | hzys
      · exact sortCmp_gt z y hx hy h
      · exact hyz z hzys

theorem sortResults_perm (l : List PageResult) :
    List.Perm (sortResults l) l := by
  induction l with
  | nil => exact List.Perm.refl _
  | cons x xs ih =>
    exact (insertRec_perm x (sortResults xs)).trans (ih.cons x)

theorem sortResults_pairwise (l : List PageResult)
    (hl : ∀ r ∈ l, r.similarityPercentage ≠ .sizeMismatchString) :
    (sortResults l).Pairwise ordOk := by
  induction l with
  | nil => simp [sortResults]
  | cons x xs ih =>
    have hx := hl x (List.mem_cons_self x xs)
    have hxs : ∀ r ∈ xs, r.similarityPercentage ≠ .sizeMismatchString :=
      fun r hr => hl r (List.mem_cons_of_mem x hr)
    exact insertRec_pairwise x (sortResults xs) hx
      (fun r hr => hxs r ((sortResults_perm xs).mem_iff.mp hr))
      (ih hxs)

/-- Comparator evaluation: two numeric records compare by difference. -/
theorem sortCmp_nn (p1 p2 : String) (e1 e2 : Option String) (x y : ℚ) :
    sortCmp ⟨p1, .number x, e1⟩ ⟨p2, .number y, e2⟩ = x - y := by
  simp [sortCmp]

/-- Comparator evaluation: a numeric record sorts after an `"Error"` one. -/
theorem sortCmp_ne (p1 p2 : String) (e1 e2 : Option String) (x : ℚ) :
    sortCmp ⟨p1, .number x, e1⟩ ⟨p2, .errorString, e2⟩ = 1 := by
  simp [sortCmp]

/-- Comparator evaluation: an `"Error"` record sorts before everything. -/
theorem sortCmp_el (p1 : String) (e1 : Option String) (b : PageResult) :
    sortCmp ⟨p1, .errorString, e1⟩ b = -1 := by
  simp [sortCmp]

/-- Comparator evaluation: a numeric record ties with `"Size mismatch"`. -/
theorem sortCmp_nsm (p1 p2 : String) (e1 e2 : Option String) (x : ℚ) :
    sortCmp ⟨p1, .number x, e1⟩ ⟨p2, .sizeMismatchString, e2⟩ = 0 := by
  simp [sortCmp]

/-- Counterexample to C3: a `"Size mismatch"` record stays behind a
`Similarity` record after sorting (the comparator ties them), so the output
does not place all `SizeMismatch` records before all `Similarity` records. -/
theorem c3_counterexample :
    sortResults [⟨"/a", .number 50, none⟩, ⟨"/b", .sizeMismatchString, none⟩] =
      [⟨"/a", .number 50, none⟩, ⟨"/b", .sizeMismatchString, none⟩] ∧
    (⟨"/b", .sizeMismatchString, none⟩ : PageResult).similarityPercentage =
      .sizeMismatchString ∧
    (⟨"/a", .number 50, none⟩ : PageResult).similarityPercentage =
      .number 50 := by
  refine ⟨?_, rfl, rfl⟩
  norm_num [sortResults, insertRec, sortCmp_nn, sortCmp_ne, sortCmp_el,
    sortCmp_nsm]

/-- C3 as amended: on any result list containing no `"Size mismatch"`
records, the produced order is a permutation of the input in which every
`"Error"` (capture-error) record precedes every `Similarity` record and the
`Similarity` records are ascending by percentage; `"Size mismatch"` records
are not reordered relative to numeric records (the comparator ties them).
The claim's concrete instance — similarities `[10, 99, 50]` plus one
`CaptureError` — sorts to `[CaptureError, 10, 50, 99]`. -/
theorem c3_ordering_amended :
    ∀ (results : List PageResult),
      (∀ r ∈ results, r.similarityPercentage ≠ .sizeMismatchString) →
      List.Perm (sortResults results) results ∧
      (sortResults results).Pairwise ordOk ∧
      sortResults
        [⟨"/a", .number 10, none⟩, ⟨"/b", .number 99, none⟩,
         ⟨"/c", .number 50, none⟩, ⟨"/d", .errorString, none⟩] =
        [⟨"/d", .errorString, none⟩, ⟨"/a", .number 10, none⟩,
         ⟨"/c", .number 50, none⟩, ⟨"/b", .number 99, none⟩] := by
  intro results hl
  refine ⟨sortResults_perm results, sortResults_pairwise results hl, ?_⟩
  norm_num [sortResults, insertRec, sortCmp_nn, sortCmp_ne, sortCmp_el,
    sortCmp_nsm]

/-- Witness for C3 at the claim's own concrete record list. -/
theorem c3_witness :
    (∀ r ∈ ([⟨"/a", .number 10, none⟩, ⟨"/b", .number 99, none⟩,
        ⟨"/c", .number 50, none⟩, ⟨"/d", .errorString, none⟩] :
        List PageResult), r.similarityPercentage ≠ .sizeMismatchString) ∧
    (List.Perm (sortResults [⟨"/a", .number 10, none⟩, ⟨"/b", .number 99, none⟩,
        ⟨"/c", .number 50, none⟩, ⟨"/d", .errorString, none⟩])
      [⟨"/a", .number 10, none⟩, ⟨"/b", .number 99, none⟩,
        ⟨"/c", .number 50, none⟩, ⟨"/d", .errorString, none⟩] ∧
     (sortResults [⟨"/a", .number 10, none⟩, ⟨"/b", .number 99, none⟩,
        ⟨"/c", .number 50, none⟩, ⟨"/d", .errorString, none⟩]).Pairwise ordOk ∧
     sortResults
        [⟨"/a", .number 10, none⟩, ⟨"/b", .number 99, none⟩,
         ⟨"/c", .number 50, none⟩, ⟨"/d", .errorString, none⟩] =
        [⟨"/d", .errorString, none⟩, ⟨"/a", .number 10, none⟩,
         ⟨"/c", .number 50, none⟩, ⟨"/b", .number 99, none⟩]) :=
  ⟨by decide,
    c3_ordering_amended
      [⟨"/a", .number 10, none⟩, ⟨"/b", .number 99, none⟩,
       ⟨"/c", .number 50, none⟩, ⟨"/d", .errorString, none⟩] (by decide)⟩

/-! ### Claim C4 (corrected)

The retry policy described by the claim exists only in the two legacy spec
files, and even there exhaustion throws a freshly built fixed message, not
the last failure's message.  The current implementation makes a single
attempt and returns normally on failure. -/

/-- Normalizing the legacy error message (the loop builds it with
`toString maxAttempts` in the middle). -/
theorem legacyMsg (url : String) :
    "Failed to load " ++ url ++ " after " ++ toString (3 : Nat) ++ " attempts" =
      "Failed to load " ++ url ++ " after 3 attempts" := by
  simp only [String.append_assoc]
  rfl

/-- Counterexample to C4: with every step failing, the current
`captureScreenshot` returns normally (no `CaptureError` is raised and nothing
is retried), and the legacy capturer's exhaustion error is the fixed message,
not the last failure's message (`"boom"`). -/
theorem c4_counterexample :
    captureScreenshot failSession "https://u" [] "shot.png" = .ok [] ∧
    captureScreenshotLegacy (fun _ => .error "boom") "https://u" [] "shot.png" =
      .error "Failed to load https://u after 3 attempts" ∧
    ("Failed to load https://u after 3 attempts" : String) ≠ "boom" := by
  refine ⟨rfl, rfl, by decide⟩

/-- C4 as amended: the legacy capture helper (the two older spec files)
retries the navigate-and-screenshot sequence up to 3 attempts; if an attempt
succeeds the screenshot is written and no further attempt is made, and after
all 3 attempts fail it raises an error whose message is the fixed string
`"Failed to load <url> after 3 attempts"` (not the last failure's message);
the current implementation performs a single attempt and returns normally on
any failure. -/
theorem c4_retry_amended :
    ∀ (a : Nat → Except String Image) (url : String) (fs : FileSystem)
      (path : String),
      (∀ e0 e1 e2, a 0 = .error e0 → a 1 = .error e1 → a 2 = .error e2 →
        captureScreenshotLegacy a url fs path =
          .error ("Failed to load " ++ url ++ " after 3 attempts")) ∧
      (∀ img, a 0 = .ok img →
        captureScreenshotLegacy a url fs path = .ok (writeFile fs path img)) ∧
      (∀ e0 img, a 0 = .error e0 → a 1 = .ok img →
        captureScreenshotLegacy a url fs path = .ok (writeFile fs path img)) ∧
      (∀ e0 e1 img, a 0 = .error e0 → a 1 = .error e1 → a 2 = .ok img →
        captureScreenshotLegacy a url fs path = .ok (writeFile fs path img)) ∧
      (∀ (s : PageSession) (e : String),
        captureScreenshotBody s fs path = .error e →
        captureScreenshot s url fs path = .ok fs) := by
  intro a url fs path
  refine ⟨?_, ?_, ?_, ?_, ?_⟩
  · intro e0 e1 e2 h0 h1 h2
    rw [← legacyMsg url]
    simp [captureScreenshotLegacy, captureAttempts, h0, h1, h2]
  · intro img h0
    simp [captureScreenshotLegacy, captureAttempts, h0]
  · intro e0 img h0 h1
    simp [captureScreenshotLegacy, captureAttempts, h0, h1]
  · intro e0 e1 img h0 h1 h2
    simp [captureScreenshotLegacy, captureAttempts, h0, h1, h2]
  · intro s e hbody
    unfold captureScreenshot
    rw [hbody]

/-- Witness for C4 at a concrete always-failing attempt oracle. -/
theorem c4_witness :
    captureScreenshotLegacy (fun _ => .error "x") "https://u" [] "p" =
      .error ("Failed to load " ++ "https://u" ++ " after 3 attempts") :=
  (c4_retry_amended (fun _ => .error "x") "https://u" [] "p").1 "x" "x" "x"
    rfl rfl rfl

/-! ### Claim C8 (corrected)

The orchestrating test contains no emptiness check on the configured page
list: with zero pages it performs no captures and still generates a report
with zero results, resolving normally — and it never aborts for any
configuration. -/

/-- Counterexample to C8: with an empty page list the run does not fail
fast — it resolves normally with an empty summary (and, being over an empty
filesystem, performed no capture or comparison writes at all). -/
theorem c8_counterexample :
    runTest (fun _ => ⟨okSession, okSession⟩) [] [] =
      .ok (⟨0, 0, 0, 0, []⟩, []) := rfl

/-- C8 as amended: the core never aborts the run — for every configuration
and every browser behaviour the orchestrating test resolves — and with an
empty page list it performs no capture work and produces the report of an
empty result list with the filesystem untouched. -/
theorem c8_no_abort_amended :
    ∀ (o : String → PageOracles) (fs : FileSystem) (pages : List String),
      (∃ v, runTest o fs pages = .ok v) ∧
      runTest o fs [] = .ok (generateHtmlReport [], fs) := by
  intro o fs pages
  exact ⟨⟨_, rfl⟩, rfl⟩

/-! ### Claim C7 -/

/-- Evaluating one canvas pixel of the contain-resize. -/
theorem containResize_pixel (img : Image) (w h x y : Nat) (hw : 0 < w)
    (hx : x < w) (hy : y < h) :
    (containResize img w h).pixelAt x y =
      (if inContentBox img w h x y then
        img.pixelAt
          (((((x : ℚ) - offsetX img w h)) / containScale img w h).floor.toNat)
          (((((y : ℚ) - offsetY img w h)) / containScale img w h).floor.toNat)
      else ⟨255, 255, 255, 0⟩) := by
  have hidx : y * w + x < h * w := by
    have h1 : y * w + x < (y + 1) * w := by
      have : (y + 1) * w = y * w + w := by ring
      omega
    have h2 : (y + 1) * w ≤ h * w := Nat.mul_le_mul_right w hy
    omega
  have hmod : (y * w + x) % w = x := by
    rw [Nat.add_comm, Nat.add_mul_mod_self_right, Nat.mod_eq_of_lt hx]
  have hdiv : (y * w + x) / w = y := by
    rw [Nat.add_comm, Nat.add_mul_div_right _ _ hw, Nat.div_eq_of_lt hx,
      Nat.zero_add]
  show (containResize img w h).data.getD
      (y * (containResize img w h).width + x) ⟨0, 0, 0, 0⟩ = _
  rw [containResize_width]
  unfold containResize
  rw [List.getD_eq_getElem?_getD, List.getElem?_map, List.getElem?_range hidx]
  simp only [Option.map_some', Option.getD_some]
  rw [hmod, hdiv]

/-- C7: normalization to a `(w, h)` target always yields an image of exactly
width `w` and height `h` (with a full `h·w` pixel buffer), using a contain
policy: a single positive scale factor on both axes (so the source aspect
ratio is preserved and nothing is stretched), scaled content that fits
entirely inside the target box (so nothing is cropped), and every canvas
pixel outside the content box equal to the fully transparent background
`(255, 255, 255, alpha 0)`. -/
theorem c7_contain_resize :
    ∀ (img : Image) (w h : Nat),
      0 < img.width → 0 < img.height → 0 < w → 0 < h →
      (containResize img w h).width = w ∧
      (containResize img w h).height = h ∧
      (containResize img w h).data.length = h * w ∧
      0 < containScale img w h ∧
      scaledWidth img w h * (img.height : ℚ) =
        scaledHeight img w h * (img.width : ℚ) ∧
      scaledWidth img w h ≤ (w : ℚ) ∧
      scaledHeight img w h ≤ (h : ℚ) ∧
      (∀ x y, x < w → y < h → inContentBox img w h x y = false →
        (containResize img w h).pixelAt x y = ⟨255, 255, 255, 0⟩) := by
  intro img w h hiw hih hw hh
  have hiwQ : (0 : ℚ) < (img.width : ℚ) := by exact_mod_cast hiw
  have hihQ : (0 : ℚ) < (img.height : ℚ) := by exact_mod_cast hih
  have hwQ : (0 : ℚ) < (w : ℚ) := by exact_mod_cast hw
  have hhQ : (0 : ℚ) < (h : ℚ) := by exact_mod_cast hh
  refine ⟨rfl, rfl, ?_, ?_, ?_, ?_, ?_, ?_⟩
  · unfold containResize
    simp
  · exact lt_min (div_pos hwQ hiwQ) (div_pos hhQ hihQ)
  · unfold scaledWidth scaledHeight
    ring
  · unfold scaledWidth containScale
    calc (img.width : ℚ) * min ((w : ℚ) / (img.width : ℚ))
          ((h : ℚ) / (img.height : ℚ))
        ≤ (img.width : ℚ) * ((w : ℚ) / (img.width : ℚ)) :=
          mul_le_mul_of_nonneg_left (min_le_left _ _) (le_of_lt hiwQ)
      _ = (w : ℚ) := by
          rw [mul_comm]
          exact div_mul_cancel₀ _ (ne_of_gt hiwQ)
  · unfold scaledHeight containScale
    calc (img.height : ℚ) * min ((w : ℚ) / (img.width : ℚ))
          ((h : ℚ) / (img.height : ℚ))
        ≤ (img.height : ℚ) * ((h : ℚ) / (img.height : ℚ)) :=
          mul_le_mul_of_nonneg_left (min_le_right _ _) (le_of_lt hihQ)
      _ = (h : ℚ) := by
          rw [mul_comm]
          exact div_mul_cancel₀ _ (ne_of_gt hihQ)
  · intro x y hx hy hbox
    rw [containResize_pixel img w h x y hw hx hy, hbox]
    rfl

/-- Witness for C7 at a concrete 1×1 source and a 2×2 target. -/
theorem c7_witness :
    0 < img1x1.width ∧ 0 < img1x1.height ∧ 0 < 2 ∧
    ((containResize img1x1 2 2).width = 2 ∧
     (containResize img1x1 2 2).height = 2 ∧
     (containResize img1x1 2 2).data.length = 2 * 2 ∧
     0 < containScale img1x1 2 2 ∧
     scaledWidth img1x1 2 2 * (img1x1.height : ℚ) =
       scaledHeight img1x1 2 2 * (img1x1.width : ℚ) ∧
     scaledWidth img1x1 2 2 ≤ (2 : ℚ) ∧
     scaledHeight img1x1 2 2 ≤ (2 : ℚ) ∧
     (∀ x y, x < 2 → y < 2 → inContentBox img1x1 2 2 x y = false →
       (containResize img1x1 2 2).pixelAt x y = ⟨255, 255, 255, 0⟩)) :=
  ⟨by decide, by decide, by decide,
    c7_contain_resize img1x1 2 2 (by decide) (by decide) (by decide) (by decide)⟩
